import Mathlib

set_option maxRecDepth 100000

/-! Verification development for the drv2605 haptic motor driver crate.

The driver is embedded shallowly: register bytes are natural numbers below
256, the bit field accessors of the bitfield wrappers become arithmetic on
bytes, and every driver operation becomes a function from a fake transport
state to an outcome, the next state, and the list of bus transactions it
issued. Unbounded polling loops take a fuel argument and report a distinct
divergence outcome when the fuel runs out. -/

/-- Set or clear bit i of a byte, mirroring the bitfield setter on an
unsigned byte, where clearing applies the complement mask on eight bits. -/
def setBit (b i : Nat) (v : Bool) : Nat :=
  if v then b ||| (1 <<< i) else b &&& (255 ^^^ (1 <<< i))

/-- Read the bit field of a byte spanning bits hi down to lo, mirroring the
bitfield getter. -/
def getField (b hi lo : Nat) : Nat :=
  (b >>> lo) &&& ((1 <<< (hi - lo + 1)) - 1)

/-- Store a value into the bit field of a byte spanning bits hi down to lo,
mirroring the bitfield setter, which masks the value to the field width. -/
def setField (b hi lo v : Nat) : Nat :=
  (b &&& (255 ^^^ (((1 <<< (hi - lo + 1)) - 1) <<< lo))) |||
    ((v &&& ((1 <<< (hi - lo + 1)) - 1)) <<< lo)

/-- The bit pattern of a signed byte value, as produced by the Rust cast
from a signed byte to an unsigned byte. -/
def i8ToU8 (v : Int) : Nat := (v % 256).toNat

/-- One bus transaction as observed by a fake transport: a write of a
payload to a device address, a one byte register read returning a result,
or a register read that failed at the transport level. -/
inductive Tx where
  | wr (dev : Nat) (payload : List Nat)
  | rd (dev : Nat) (reg : Nat) (result : Nat)
  | rdFail (dev : Nat) (reg : Nat)
deriving DecidableEq

/-- The device address a transaction was issued to. -/
def Tx.dev : Tx → Nat
  | .wr d _ => d
  | .rd d _ _ => d
  | .rdFail d _ => d

/-- The error type of the driver. -/
inductive DrvError where
  | DeviceIdError
  | ConnectionError
  | DeviceDiagError
  | CalibrationError
deriving DecidableEq

/-- Outcome of running a driver computation: a value, an error, or the
divergence of an unbounded polling loop, reported when its fuel runs out. -/
inductive Outcome (α : Type) where
  | ok (a : α)
  | err (e : DrvError)
  | timeout
deriving DecidableEq

/-- A fake transport over a state type: a bus write yields a success flag
and a next state, a one byte register read yields an optional byte (none
models a transport failure) and a next state. -/
structure Transport (σ : Type) where
  writeT : σ → Nat → List Nat → Bool × σ
  readT : σ → Nat → Nat → Option Nat × σ

/-- A driver computation over transport state σ: from a state it produces
an outcome, the next state, and the list of bus transactions it issued. -/
def DrvM (σ α : Type) := σ → Outcome α × σ × List Tx

/-- Sequencing with error propagation, mirroring the question mark
operator of the source. -/
def DrvM.bind {σ α β : Type} (m : DrvM σ α) (f : α → DrvM σ β) : DrvM σ β :=
  fun s =>
    match m s with
    | (.ok a, s2, t1) =>
      match f a s2 with
      | (r, s3, t2) => (r, s3, t1 ++ t2)
    | (.err e, s2, t1) => (.err e, s2, t1)
    | (.timeout, s2, t1) => (.timeout, s2, t1)

/-- A computation returning a value without bus traffic. -/
def DrvM.pure {σ α : Type} (a : α) : DrvM σ α := fun s => (.ok a, s, [])

/-- A computation failing with a driver error without bus traffic. -/
def DrvM.fail {σ α : Type} (e : DrvError) : DrvM σ α := fun s => (.err e, s, [])

/-- The divergence marker produced when loop fuel is exhausted. -/
def DrvM.hang {σ α : Type} : DrvM σ α := fun s => (.timeout, s, [])

/-- The hardcoded address of the driver. All drivers share the same
address so that it is possible to broadcast on the bus. -/
def ADDRESS : Nat := 0x5a

/-- Issue a raw bus write of a payload and record the transaction. -/
def i2cWrite {σ : Type} (T : Transport σ) (dev : Nat) (payload : List Nat) :
    DrvM σ Unit :=
  fun s =>
    let r := T.writeT s dev payload
    ((if r.1 then .ok () else .err .ConnectionError), r.2, [Tx.wr dev payload])

/-- Issue a write then read transaction returning one byte (masked to the
byte range by the type of the read buffer) and record the transaction. -/
def i2cWriteRead {σ : Type} (T : Transport σ) (dev reg : Nat) : DrvM σ Nat :=
  fun s =>
    match T.readT s dev reg with
    | (some b, s2) => (.ok (b % 256), s2, [Tx.rd dev reg (b % 256)])
    | (none, s2) => (.err .ConnectionError, s2, [Tx.rdFail dev reg])

/-- A scripted fake transport: the state counts issued transactions, every
write succeeds, and the byte answered to the n-th transaction when it is a
read is drawn from the script. -/
def oracleT (resp : Nat → Option Nat) : Transport Nat where
  writeT := fun s _ _ => (true, s + 1)
  readT := fun s _ _ => (resp s, s + 1)

/-- Store a list of values into consecutive registers of a register file,
starting at the given address. -/
def storeSeq : (Nat → Nat) → Nat → List Nat → (Nat → Nat)
  | s, _, [] => s
  | s, a, v :: vs => storeSeq (fun r => if r = a then v else s r) (a + 1) vs

/-- Apply a bus write payload (register address followed by the data
bytes) to a register file. -/
def applyWrite (s : Nat → Nat) : List Nat → (Nat → Nat)
  | [] => s
  | a :: vs => storeSeq s a vs

/-- A register file fake transport: reads answer the stored byte and
writes store the payload into consecutive registers. -/
def regT : Transport (Nat → Nat) where
  writeT := fun s _ payload => (true, applyWrite s payload)
  readT := fun s _ reg => (some (s reg), s)

namespace Drv2605

/-- The operating modes of the device, with the discriminants assigned by
the mode enumeration at the crate root. -/
inductive Mode where
  | InternalTrigger
  | ExternalTriggerRisingEdge
  | ExternalTriggerLevelMode
  | PwmInputAndAnalogInput
  | AudioToVibe
  | RealTimePlayback
  | Diagnostics
  | AutoCalibration
deriving DecidableEq

/-- The three bit code of each operating mode. -/
def Mode.code : Mode → Nat
  | .InternalTrigger => 0
  | .ExternalTriggerRisingEdge => 1
  | .ExternalTriggerLevelMode => 2
  | .PwmInputAndAnalogInput => 3
  | .AudioToVibe => 4
  | .RealTimePlayback => 5
  | .Diagnostics => 6
  | .AutoCalibration => 7

/-- The register enumeration of the crate root. -/
inductive Register where
  | Status
  | Mode
  | RealTimePlaybackInput
  | Register3
  | WaveformSequence0
  | WaveformSequence1
  | WaveformSequence2
  | WaveformSequence3
  | WaveformSequence4
  | WaveformSequence5
  | WaveformSequence6
  | WaveformSequence7
  | Go
  | OverdriveTimeOffset
  | SustainTimeOffsetPositive
  | SustainTimeOffsetNegative
  | BrakeTimeOffset
  | RatedVoltage
  | OverdriveClampVoltage
  | AutoCalibrationCompensationResult
  | AutoCalibrationBackEMFResult
  | FeedbackControl
  | Control1
  | Control2
  | Control3
  | Control4
deriving DecidableEq

/-- The discriminant of each register, its bus address. -/
def Register.addr : Register → Nat
  | .Status => 0
  | .Mode => 1
  | .RealTimePlaybackInput => 2
  | .Register3 => 3
  | .WaveformSequence0 => 4
  | .WaveformSequence1 => 5
  | .WaveformSequence2 => 6
  | .WaveformSequence3 => 7
  | .WaveformSequence4 => 8
  | .WaveformSequence5 => 9
  | .WaveformSequence6 => 0xa
  | .WaveformSequence7 => 0xb
  | .Go => 0xc
  | .OverdriveTimeOffset => 0xd
  | .SustainTimeOffsetPositive => 0xe
  | .SustainTimeOffsetNegative => 0xf
  | .BrakeTimeOffset => 0x10
  | .RatedVoltage => 0x16
  | .OverdriveClampVoltage => 0x17
  | .AutoCalibrationCompensationResult => 0x18
  | .AutoCalibrationBackEMFResult => 0x19
  | .FeedbackControl => 0x1a
  | .Control1 => 0x1b
  | .Control2 => 0x1c
  | .Control3 => 0x1d
  | .Control4 => 0x1e

/-- The expected device identifier of the DRV2605 chip bound to an ERM motor. -/
def Drv2605Erm.ID : Nat := 3

/-- The expected device identifier of the DRV2605 chip bound to an LRA motor. -/
def Drv2605Lra.ID : Nat := 3

/-- The expected device identifier of the DRV2604 chip bound to an ERM motor. -/
def Drv2604Erm.ID : Nat := 4

/-- The expected device identifier of the DRV2604 chip bound to an LRA motor. -/
def Drv2604Lra.ID : Nat := 4

/-- The expected device identifier of the DRV2604L chip bound to an ERM motor. -/
def Drv2604lErm.ID : Nat := 6

/-- The expected device identifier of the DRV2604L chip bound to an LRA motor. -/
def Drv2604lLra.ID : Nat := 6

/-- The expected device identifier of the DRV2605L chip bound to an ERM motor. -/
def Drv2605lErm.ID : Nat := 7

/-- The expected device identifier of the DRV2605L chip bound to an LRA motor. -/
def Drv2605lLra.ID : Nat := 7

end Drv2605
namespace Drv2605

/-- The catalog of ROM waveform identifiers from the crate root (each variant
carries the fixed discriminant used by the cast to a register byte). -/
inductive Effect where
  | StrongClick100
  | StrongClick60
  | StrongClick30
  | SharpClick100
  | SharpClick60
  | SharpClick30
  | SoftBump100
  | SoftBump60
  | SoftBump30
  | DoubleClick100
  | DoubleClick60
  | TripleClick100
  | SoftFuzz60
  | StrongBuzz100
  | Alert750ms
  | Alert1000ms
  | StrongClickOne100
  | StrongClickTwo80
  | StrongClickThree60
  | StrongClickFour30
  | MediumClickOne100
  | MediumClickTwo80
  | MediumClickThree60
  | SharpTickOne100
  | SharpTickTwo80
  | SharpTickThree60
  | ShortDoubleClickStrongOne100
  | ShortDoubleClickStrongTwo80
  | ShortDoubleClickStrongThree60
  | ShortDoubleClickStrongFour30
  | ShortDoubleClickMediumOne100
  | ShortDoubleClickMediumTwo80
  | ShortDoubleClickMediumThree60
  | ShortDoubleSharpTickOne100
  | ShortDoubleSharpTickTwo80
  | ShortDoubleSharpTickThree60
  | LongDoubleSharpClickStrongOne100
  | LongDoubleSharpClickStrongTwo80
  | LongDoubleSharpClickStrongThree60
  | LongDoubleSharpClickStrongFour30
  | LongDoubleSharpClickMediumOne100
  | LongDoubleSharpClickMediumTwo80
  | LongDoubleSharpClickMediumThree60
  | LongDoubleSharpTickOne100
  | LongDoubleSharpTickTwo80
  | LongDoubleSharpTickThree60
  | BuzzOne100
  | BuzzTwo80
  | BuzzThree60
  | BuzzFour40
  | BuzzFive20
  | PulsingStrongOne100
  | PulsingStrongTwo60
  | PulsingMediumOne100
  | PulsingMediumTwo60
  | PulsingSharpOne100
  | PulsingSharpTwo60
  | TransitionClickOne100
  | TransitionClickTwo80
  | TransitionClickThree60
  | TransitionClickFour40
  | TransitionClickFive20
  | TransitionClickSix10
  | TransitionHumOne100
  | TransitionHumTwo80
  | TransitionHumThree60
  | TransitionHumFour40
  | TransitionHumFive20
  | TransitionHumSix10
  | TransitionRampDownLongSmoothOne100to0
  | TransitionRampDownLongSmoothTwo100to0
  | TransitionRampDownMediumSmoothOne100to0
  | TransitionRampDownMediumSmoothTwo100to0
  | TransitionRampDownShortSmoothOne100to0
  | TransitionRampDownShortSmoothTwo100to0
  | TransitionRampDownLongSharpOne100to0
  | TransitionRampDownLongSharpTwo100to0
  | TransitionRampDownMediumSharpOne100to0
  | TransitionRampDownMediumSharpTwo100to0
  | TransitionRampDownShortSharpOne100to0
  | TransitionRampDownShortSharpTwo100to0
  | TransitionRampUpLongSmoothOne0to100
  | TransitionRampUpLongSmoothTwo0to100
  | TransitionRampUpMediumSmoothOne0to100
  | TransitionRampUpMediumSmoothTwo0to100
  | TransitionRampUpShortSmoothOne0to100
  | TransitionRampUpShortSmoothTwo0to100
  | TransitionRampUpLongSharpOne0to100
  | TransitionRampUpLongSharpTwo0to100
  | TransitionRampUpMediumSharpOne0to100
  | TransitionRampUpMediumSharpTwo0to100
  | TransitionRampUpShortSharpOne0to100
  | TransitionRampUpShortSharpTwo0to100
  | TransitionRampDownLongSmoothOne50to0
  | TransitionRampDownLongSmoothTwo50to0
  | TransitionRampDownMediumSmoothOne50to0
  | TransitionRampDownMediumSmoothTwo50to0
  | TransitionRampDownShortSmoothOne50to0
  | TransitionRampDownShortSmoothTwo50to0
  | TransitionRampDownLongSharpOne50to0
  | TransitionRampDownLongSharpTwo50to0
  | TransitionRampDownMediumSharpOne50to0
  | TransitionRampDownMediumSharpTwo50to0
  | TransitionRampDownShortSharpOne50to0
  | TransitionRampDownShortSharpTwo50to0
  | TransitionRampUpLongSmoothOne0to50
  | TransitionRampUpLongSmoothTwo0to50
  | TransitionRampUpMediumSmoothOne0to50
  | TransitionRampUpMediumSmoothTwo0to50
  | TransitionRampUpShortSmoothOne0to50
  | TransitionRampUpShortSmoothTwo0to50
  | TransitionRampUpLongSharpOne0to50
  | TransitionRampUpLongSharpTwo0to50
  | TransitionRampUpMediumSharpOne0to50
  | TransitionRampUpMediumSharpTwo0to50
  | TransitionRampUpShortSharpOne0to50
  | TransitionRampUpShortSharpTwo0to50
  | LongBuzzForProgrammaticStopping100
  | SmoothHumOne50
  | SmoothHumTwo40
  | SmoothHumThree30
  | SmoothHumFour20
  | SmoothHumFive10

/-- The numeric discriminant of each waveform variant (the value of the Rust
cast of the effect to an unsigned byte). -/
def Effect.code : Effect → Nat
  | .StrongClick100 => 1
  | .StrongClick60 => 2
  | .StrongClick30 => 3
  | .SharpClick100 => 4
  | .SharpClick60 => 5
  | .SharpClick30 => 6
  | .SoftBump100 => 7
  | .SoftBump60 => 8
  | .SoftBump30 => 9
  | .DoubleClick100 => 10
  | .DoubleClick60 => 11
  | .TripleClick100 => 12
  | .SoftFuzz60 => 13
  | .StrongBuzz100 => 14
  | .Alert750ms => 15
  | .Alert1000ms => 16
  | .StrongClickOne100 => 17
  | .StrongClickTwo80 => 18
  | .StrongClickThree60 => 19
  | .StrongClickFour30 => 20
  | .MediumClickOne100 => 21
  | .MediumClickTwo80 => 22
  | .MediumClickThree60 => 23
  | .SharpTickOne100 => 24
  | .SharpTickTwo80 => 25
  | .SharpTickThree60 => 26
  | .ShortDoubleClickStrongOne100 => 27
  | .ShortDoubleClickStrongTwo80 => 28
  | .ShortDoubleClickStrongThree60 => 29
  | .ShortDoubleClickStrongFour30 => 30
  | .ShortDoubleClickMediumOne100 => 31
  | .ShortDoubleClickMediumTwo80 => 32
  | .ShortDoubleClickMediumThree60 => 33
  | .ShortDoubleSharpTickOne100 => 34
  | .ShortDoubleSharpTickTwo80 => 35
  | .ShortDoubleSharpTickThree60 => 36
  | .LongDoubleSharpClickStrongOne100 => 37
  | .LongDoubleSharpClickStrongTwo80 => 38
  | .LongDoubleSharpClickStrongThree60 => 39
  | .LongDoubleSharpClickStrongFour30 => 40
  | .LongDoubleSharpClickMediumOne100 => 41
  | .LongDoubleSharpClickMediumTwo80 => 42
  | .LongDoubleSharpClickMediumThree60 => 43
  | .LongDoubleSharpTickOne100 => 44
  | .LongDoubleSharpTickTwo80 => 45
  | .LongDoubleSharpTickThree60 => 46
  | .BuzzOne100 => 47
  | .BuzzTwo80 => 48
  | .BuzzThree60 => 49
  | .BuzzFour40 => 50
  | .BuzzFive20 => 51
  | .PulsingStrongOne100 => 52
  | .PulsingStrongTwo60 => 53
  | .PulsingMediumOne100 => 54
  | .PulsingMediumTwo60 => 55
  | .PulsingSharpOne100 => 56
  | .PulsingSharpTwo60 => 57
  | .TransitionClickOne100 => 58
  | .TransitionClickTwo80 => 59
  | .TransitionClickThree60 => 60
  | .TransitionClickFour40 => 61
  | .TransitionClickFive20 => 62
  | .TransitionClickSix10 => 63
  | .TransitionHumOne100 => 64
  | .TransitionHumTwo80 => 65
  | .TransitionHumThree60 => 66
  | .TransitionHumFour40 => 67
  | .TransitionHumFive20 => 68
  | .TransitionHumSix10 => 69
  | .TransitionRampDownLongSmoothOne100to0 => 70
  | .TransitionRampDownLongSmoothTwo100to0 => 71
  | .TransitionRampDownMediumSmoothOne100to0 => 72
  | .TransitionRampDownMediumSmoothTwo100to0 => 73
  | .TransitionRampDownShortSmoothOne100to0 => 74
  | .TransitionRampDownShortSmoothTwo100to0 => 75
  | .TransitionRampDownLongSharpOne100to0 => 76
  | .TransitionRampDownLongSharpTwo100to0 => 77
  | .TransitionRampDownMediumSharpOne100to0 => 78
  | .TransitionRampDownMediumSharpTwo100to0 => 79
  | .TransitionRampDownShortSharpOne100to0 => 80
  | .TransitionRampDownShortSharpTwo100to0 => 81
  | .TransitionRampUpLongSmoothOne0to100 => 82
  | .TransitionRampUpLongSmoothTwo0to100 => 83
  | .TransitionRampUpMediumSmoothOne0to100 => 84
  | .TransitionRampUpMediumSmoothTwo0to100 => 85
  | .TransitionRampUpShortSmoothOne0to100 => 86
  | .TransitionRampUpShortSmoothTwo0to100 => 87
  | .TransitionRampUpLongSharpOne0to100 => 88
  | .TransitionRampUpLongSharpTwo0to100 => 89
  | .TransitionRampUpMediumSharpOne0to100 => 90
  | .TransitionRampUpMediumSharpTwo0to100 => 91
  | .TransitionRampUpShortSharpOne0to100 => 92
  | .TransitionRampUpShortSharpTwo0to100 => 93
  | .TransitionRampDownLongSmoothOne50to0 => 94
  | .TransitionRampDownLongSmoothTwo50to0 => 95
  | .TransitionRampDownMediumSmoothOne50to0 => 96
  | .TransitionRampDownMediumSmoothTwo50to0 => 97
  | .TransitionRampDownShortSmoothOne50to0 => 98
  | .TransitionRampDownShortSmoothTwo50to0 => 99
  | .TransitionRampDownLongSharpOne50to0 => 100
  | .TransitionRampDownLongSharpTwo50to0 => 101
  | .TransitionRampDownMediumSharpOne50to0 => 102
  | .TransitionRampDownMediumSharpTwo50to0 => 103
  | .TransitionRampDownShortSharpOne50to0 => 104
  | .TransitionRampDownShortSharpTwo50to0 => 105
  | .TransitionRampUpLongSmoothOne0to50 => 106
  | .TransitionRampUpLongSmoothTwo0to50 => 107
  | .TransitionRampUpMediumSmoothOne0to50 => 108
  | .TransitionRampUpMediumSmoothTwo0to50 => 109
  | .TransitionRampUpShortSmoothOne0to50 => 110
  | .TransitionRampUpShortSmoothTwo0to50 => 111
  | .TransitionRampUpLongSharpOne0to50 => 112
  | .TransitionRampUpLongSharpTwo0to50 => 113
  | .TransitionRampUpMediumSharpOne0to50 => 114
  | .TransitionRampUpMediumSharpTwo0to50 => 115
  | .TransitionRampUpShortSharpOne0to50 => 116
  | .TransitionRampUpShortSharpTwo0to50 => 117
  | .LongBuzzForProgrammaticStopping100 => 118
  | .SmoothHumOne50 => 119
  | .SmoothHumTwo40 => 120
  | .SmoothHumThree30 => 121
  | .SmoothHumFour20 => 122
  | .SmoothHumFive10 => 123

end Drv2605

namespace Registers

/-- The waveform selection type of the registers module: a stop sentinel, a
delay pseudo-effect carrying tens of milliseconds, or one of the 123 named
ROM waveforms. -/
inductive Effect where
  | Stop
  | Delays (n : Nat)
  | StrongClick100
  | StrongClick60
  | StrongClick30
  | SharpClick100
  | SharpClick60
  | SharpClick30
  | SoftBump100
  | SoftBump60
  | SoftBump30
  | DoubleClick100
  | DoubleClick60
  | TripleClick100
  | SoftFuzz60
  | StrongBuzz100
  | Alert750ms
  | Alert1000ms
  | StrongClickOne100
  | StrongClickTwo80
  | StrongClickThree60
  | StrongClickFour30
  | MediumClickOne100
  | MediumClickTwo80
  | MediumClickThree60
  | SharpTickOne100
  | SharpTickTwo80
  | SharpTickThree60
  | ShortDoubleClickStrongOne100
  | ShortDoubleClickStrongTwo80
  | ShortDoubleClickStrongThree60
  | ShortDoubleClickStrongFour30
  | ShortDoubleClickMediumOne100
  | ShortDoubleClickMediumTwo80
  | ShortDoubleClickMediumThree60
  | ShortDoubleSharpTickOne100
  | ShortDoubleSharpTickTwo80
  | ShortDoubleSharpTickThree60
  | LongDoubleSharpClickStrongOne100
  | LongDoubleSharpClickStrongTwo80
  | LongDoubleSharpClickStrongThree60
  | LongDoubleSharpClickStrongFour30
  | LongDoubleSharpClickMediumOne100
  | LongDoubleSharpClickMediumTwo80
  | LongDoubleSharpClickMediumThree60
  | LongDoubleSharpTickOne100
  | LongDoubleSharpTickTwo80
  | LongDoubleSharpTickThree60
  | BuzzOne100
  | BuzzTwo80
  | BuzzThree60
  | BuzzFour40
  | BuzzFive20
  | PulsingStrongOne100
  | PulsingStrongTwo60
  | PulsingMediumOne100
  | PulsingMediumTwo60
  | PulsingSharpOne100
  | PulsingSharpTwo60
  | TransitionClickOne100
  | TransitionClickTwo80
  | TransitionClickThree60
  | TransitionClickFour40
  | TransitionClickFive20
  | TransitionClickSix10
  | TransitionHumOne100
  | TransitionHumTwo80
  | TransitionHumThree60
  | TransitionHumFour40
  | TransitionHumFive20
  | TransitionHumSix10
  | TransitionRampDownLongSmoothOne100to0
  | TransitionRampDownLongSmoothTwo100to0
  | TransitionRampDownMediumSmoothOne100to0
  | TransitionRampDownMediumSmoothTwo100to0
  | TransitionRampDownShortSmoothOne100to0
  | TransitionRampDownShortSmoothTwo100to0
  | TransitionRampDownLongSharpOne100to0
  | TransitionRampDownLongSharpTwo100to0
  | TransitionRampDownMediumSharpOne100to0
  | TransitionRampDownMediumSharpTwo100to0
  | TransitionRampDownShortSharpOne100to0
  | TransitionRampDownShortSharpTwo100to0
  | TransitionRampUpLongSmoothOne0to100
  | TransitionRampUpLongSmoothTwo0to100
  | TransitionRampUpMediumSmoothOne0to100
  | TransitionRampUpMediumSmoothTwo0to100
  | TransitionRampUpShortSmoothOne0to100
  | TransitionRampUpShortSmoothTwo0to100
  | TransitionRampUpLongSharpOne0to100
  | TransitionRampUpLongSharpTwo0to100
  | TransitionRampUpMediumSharpOne0to100
  | TransitionRampUpMediumSharpTwo0to100
  | TransitionRampUpShortSharpOne0to100
  | TransitionRampUpShortSharpTwo0to100
  | TransitionRampDownLongSmoothOne50to0
  | TransitionRampDownLongSmoothTwo50to0
  | TransitionRampDownMediumSmoothOne50to0
  | TransitionRampDownMediumSmoothTwo50to0
  | TransitionRampDownShortSmoothOne50to0
  | TransitionRampDownShortSmoothTwo50to0
  | TransitionRampDownLongSharpOne50to0
  | TransitionRampDownLongSharpTwo50to0
  | TransitionRampDownMediumSharpOne50to0
  | TransitionRampDownMediumSharpTwo50to0
  | TransitionRampDownShortSharpOne50to0
  | TransitionRampDownShortSharpTwo50to0
  | TransitionRampUpLongSmoothOne0to50
  | TransitionRampUpLongSmoothTwo0to50
  | TransitionRampUpMediumSmoothOne0to50
  | TransitionRampUpMediumSmoothTwo0to50
  | TransitionRampUpShortSmoothOne0to50
  | TransitionRampUpShortSmoothTwo0to50
  | TransitionRampUpLongSharpOne0to50
  | TransitionRampUpLongSharpTwo0to50
  | TransitionRampUpMediumSharpOne0to50
  | TransitionRampUpMediumSharpTwo0to50
  | TransitionRampUpShortSharpOne0to50
  | TransitionRampUpShortSharpTwo0to50
  | LongBuzzForProgrammaticStopping100
  | SmoothHumOne50
  | SmoothHumTwo40
  | SmoothHumThree30
  | SmoothHumFour20
  | SmoothHumFive10

/-- Encoding of an effect to its register byte, translated arm by arm from the
conversion of an effect into an unsigned byte in the registers module. The
delay arm computes the bitwise or of the count with 0x80 on the byte type. -/
def Effect.toByte : Effect → Nat
  | .Delays n => (n % 256) ||| 0x80
  | .Stop => 0
  | .StrongClick100 => 1
  | .StrongClick60 => 2
  | .StrongClick30 => 3
  | .SharpClick100 => 4
  | .SharpClick60 => 5
  | .SharpClick30 => 6
  | .SoftBump100 => 7
  | .SoftBump60 => 8
  | .SoftBump30 => 9
  | .DoubleClick100 => 10
  | .DoubleClick60 => 11
  | .TripleClick100 => 12
  | .SoftFuzz60 => 13
  | .StrongBuzz100 => 14
  | .Alert750ms => 15
  | .Alert1000ms => 16
  | .StrongClickOne100 => 17
  | .StrongClickTwo80 => 18
  | .StrongClickThree60 => 19
  | .StrongClickFour30 => 20
  | .MediumClickOne100 => 21
  | .MediumClickTwo80 => 22
  | .MediumClickThree60 => 23
  | .SharpTickOne100 => 24
  | .SharpTickTwo80 => 25
  | .SharpTickThree60 => 26
  | .ShortDoubleClickStrongOne100 => 27
  | .ShortDoubleClickStrongTwo80 => 28
  | .ShortDoubleClickStrongThree60 => 29
  | .ShortDoubleClickStrongFour30 => 30
  | .ShortDoubleClickMediumOne100 => 31
  | .ShortDoubleClickMediumTwo80 => 32
  | .ShortDoubleClickMediumThree60 => 33
  | .ShortDoubleSharpTickOne100 => 34
  | .ShortDoubleSharpTickTwo80 => 35
  | .ShortDoubleSharpTickThree60 => 36
  | .LongDoubleSharpClickStrongOne100 => 37
  | .LongDoubleSharpClickStrongTwo80 => 38
  | .LongDoubleSharpClickStrongThree60 => 39
  | .LongDoubleSharpClickStrongFour30 => 40
  | .LongDoubleSharpClickMediumOne100 => 41
  | .LongDoubleSharpClickMediumTwo80 => 42
  | .LongDoubleSharpClickMediumThree60 => 43
  | .LongDoubleSharpTickOne100 => 44
  | .LongDoubleSharpTickTwo80 => 45
  | .LongDoubleSharpTickThree60 => 46
  | .BuzzOne100 => 47
  | .BuzzTwo80 => 48
  | .BuzzThree60 => 49
  | .BuzzFour40 => 50
  | .BuzzFive20 => 51
  | .PulsingStrongOne100 => 52
  | .PulsingStrongTwo60 => 53
  | .PulsingMediumOne100 => 54
  | .PulsingMediumTwo60 => 55
  | .PulsingSharpOne100 => 56
  | .PulsingSharpTwo60 => 57
  | .TransitionClickOne100 => 58
  | .TransitionClickTwo80 => 59
  | .TransitionClickThree60 => 60
  | .TransitionClickFour40 => 61
  | .TransitionClickFive20 => 62
  | .TransitionClickSix10 => 63
  | .TransitionHumOne100 => 64
  | .TransitionHumTwo80 => 65
  | .TransitionHumThree60 => 66
  | .TransitionHumFour40 => 67
  | .TransitionHumFive20 => 68
  | .TransitionHumSix10 => 69
  | .TransitionRampDownLongSmoothOne100to0 => 70
  | .TransitionRampDownLongSmoothTwo100to0 => 71
  | .TransitionRampDownMediumSmoothOne100to0 => 72
  | .TransitionRampDownMediumSmoothTwo100to0 => 73
  | .TransitionRampDownShortSmoothOne100to0 => 74
  | .TransitionRampDownShortSmoothTwo100to0 => 75
  | .TransitionRampDownLongSharpOne100to0 => 76
  | .TransitionRampDownLongSharpTwo100to0 => 77
  | .TransitionRampDownMediumSharpOne100to0 => 78
  | .TransitionRampDownMediumSharpTwo100to0 => 79
  | .TransitionRampDownShortSharpOne100to0 => 80
  | .TransitionRampDownShortSharpTwo100to0 => 81
  | .TransitionRampUpLongSmoothOne0to100 => 82
  | .TransitionRampUpLongSmoothTwo0to100 => 83
  | .TransitionRampUpMediumSmoothOne0to100 => 84
  | .TransitionRampUpMediumSmoothTwo0to100 => 85
  | .TransitionRampUpShortSmoothOne0to100 => 86
  | .TransitionRampUpShortSmoothTwo0to100 => 87
  | .TransitionRampUpLongSharpOne0to100 => 88
  | .TransitionRampUpLongSharpTwo0to100 => 89
  | .TransitionRampUpMediumSharpOne0to100 => 90
  | .TransitionRampUpMediumSharpTwo0to100 => 91
  | .TransitionRampUpShortSharpOne0to100 => 92
  | .TransitionRampUpShortSharpTwo0to100 => 93
  | .TransitionRampDownLongSmoothOne50to0 => 94
  | .TransitionRampDownLongSmoothTwo50to0 => 95
  | .TransitionRampDownMediumSmoothOne50to0 => 96
  | .TransitionRampDownMediumSmoothTwo50to0 => 97
  | .TransitionRampDownShortSmoothOne50to0 => 98
  | .TransitionRampDownShortSmoothTwo50to0 => 99
  | .TransitionRampDownLongSharpOne50to0 => 100
  | .TransitionRampDownLongSharpTwo50to0 => 101
  | .TransitionRampDownMediumSharpOne50to0 => 102
  | .TransitionRampDownMediumSharpTwo50to0 => 103
  | .TransitionRampDownShortSharpOne50to0 => 104
  | .TransitionRampDownShortSharpTwo50to0 => 105
  | .TransitionRampUpLongSmoothOne0to50 => 106
  | .TransitionRampUpLongSmoothTwo0to50 => 107
  | .TransitionRampUpMediumSmoothOne0to50 => 108
  | .TransitionRampUpMediumSmoothTwo0to50 => 109
  | .TransitionRampUpShortSmoothOne0to50 => 110
  | .TransitionRampUpShortSmoothTwo0to50 => 111
  | .TransitionRampUpLongSharpOne0to50 => 112
  | .TransitionRampUpLongSharpTwo0to50 => 113
  | .TransitionRampUpMediumSharpOne0to50 => 114
  | .TransitionRampUpMediumSharpTwo0to50 => 115
  | .TransitionRampUpShortSharpOne0to50 => 116
  | .TransitionRampUpShortSharpTwo0to50 => 117
  | .LongBuzzForProgrammaticStopping100 => 118
  | .SmoothHumOne50 => 119
  | .SmoothHumTwo40 => 120
  | .SmoothHumThree30 => 121
  | .SmoothHumFour20 => 122
  | .SmoothHumFive10 => 123

/-- Modelled from the spec: the decoding of a waveform register byte back to an
effect. No decoder exists in the source; the spec describes the catalog as
waveform identifiers 1 to 123, a stop sentinel with identifier 0, and a delay
pseudo-effect with the top bit set and the low seven bits holding the count. -/
def effectOfByte (b : Nat) : Option Effect :=
  if b = 0 then some .Stop
  else if 128 ≤ b then some (.Delays (b &&& 127))
  else
    match b with
    | 1 => some .StrongClick100
    | 2 => some .StrongClick60
    | 3 => some .StrongClick30
    | 4 => some .SharpClick100
    | 5 => some .SharpClick60
    | 6 => some .SharpClick30
    | 7 => some .SoftBump100
    | 8 => some .SoftBump60
    | 9 => some .SoftBump30
    | 10 => some .DoubleClick100
    | 11 => some .DoubleClick60
    | 12 => some .TripleClick100
    | 13 => some .SoftFuzz60
    | 14 => some .StrongBuzz100
    | 15 => some .Alert750ms
    | 16 => some .Alert1000ms
    | 17 => some .StrongClickOne100
    | 18 => some .StrongClickTwo80
    | 19 => some .StrongClickThree60
    | 20 => some .StrongClickFour30
    | 21 => some .MediumClickOne100
    | 22 => some .MediumClickTwo80
    | 23 => some .MediumClickThree60
    | 24 => some .SharpTickOne100
    | 25 => some .SharpTickTwo80
    | 26 => some .SharpTickThree60
    | 27 => some .ShortDoubleClickStrongOne100
    | 28 => some .ShortDoubleClickStrongTwo80
    | 29 => some .ShortDoubleClickStrongThree60
    | 30 => some .ShortDoubleClickStrongFour30
    | 31 => some .ShortDoubleClickMediumOne100
    | 32 => some .ShortDoubleClickMediumTwo80
    | 33 => some .ShortDoubleClickMediumThree60
    | 34 => some .ShortDoubleSharpTickOne100
    | 35 => some .ShortDoubleSharpTickTwo80
    | 36 => some .ShortDoubleSharpTickThree60
    | 37 => some .LongDoubleSharpClickStrongOne100
    | 38 => some .LongDoubleSharpClickStrongTwo80
    | 39 => some .LongDoubleSharpClickStrongThree60
    | 40 => some .LongDoubleSharpClickStrongFour30
    | 41 => some .LongDoubleSharpClickMediumOne100
    | 42 => some .LongDoubleSharpClickMediumTwo80
    | 43 => some .LongDoubleSharpClickMediumThree60
    | 44 => some .LongDoubleSharpTickOne100
    | 45 => some .LongDoubleSharpTickTwo80
    | 46 => some .LongDoubleSharpTickThree60
    | 47 => some .BuzzOne100
    | 48 => some .BuzzTwo80
    | 49 => some .BuzzThree60
    | 50 => some .BuzzFour40
    | 51 => some .BuzzFive20
    | 52 => some .PulsingStrongOne100
    | 53 => some .PulsingStrongTwo60
    | 54 => some .PulsingMediumOne100
    | 55 => some .PulsingMediumTwo60
    | 56 => some .PulsingSharpOne100
    | 57 => some .PulsingSharpTwo60
    | 58 => some .TransitionClickOne100
    | 59 => some .TransitionClickTwo80
    | 60 => some .TransitionClickThree60
    | 61 => some .TransitionClickFour40
    | 62 => some .TransitionClickFive20
    | 63 => some .TransitionClickSix10
    | 64 => some .TransitionHumOne100
    | 65 => some .TransitionHumTwo80
    | 66 => some .TransitionHumThree60
    | 67 => some .TransitionHumFour40
    | 68 => some .TransitionHumFive20
    | 69 => some .TransitionHumSix10
    | 70 => some .TransitionRampDownLongSmoothOne100to0
    | 71 => some .TransitionRampDownLongSmoothTwo100to0
    | 72 => some .TransitionRampDownMediumSmoothOne100to0
    | 73 => some .TransitionRampDownMediumSmoothTwo100to0
    | 74 => some .TransitionRampDownShortSmoothOne100to0
    | 75 => some .TransitionRampDownShortSmoothTwo100to0
    | 76 => some .TransitionRampDownLongSharpOne100to0
    | 77 => some .TransitionRampDownLongSharpTwo100to0
    | 78 => some .TransitionRampDownMediumSharpOne100to0
    | 79 => some .TransitionRampDownMediumSharpTwo100to0
    | 80 => some .TransitionRampDownShortSharpOne100to0
    | 81 => some .TransitionRampDownShortSharpTwo100to0
    | 82 => some .TransitionRampUpLongSmoothOne0to100
    | 83 => some .TransitionRampUpLongSmoothTwo0to100
    | 84 => some .TransitionRampUpMediumSmoothOne0to100
    | 85 => some .TransitionRampUpMediumSmoothTwo0to100
    | 86 => some .TransitionRampUpShortSmoothOne0to100
    | 87 => some .TransitionRampUpShortSmoothTwo0to100
    | 88 => some .TransitionRampUpLongSharpOne0to100
    | 89 => some .TransitionRampUpLongSharpTwo0to100
    | 90 => some .TransitionRampUpMediumSharpOne0to100
    | 91 => some .TransitionRampUpMediumSharpTwo0to100
    | 92 => some .TransitionRampUpShortSharpOne0to100
    | 93 => some .TransitionRampUpShortSharpTwo0to100
    | 94 => some .TransitionRampDownLongSmoothOne50to0
    | 95 => some .TransitionRampDownLongSmoothTwo50to0
    | 96 => some .TransitionRampDownMediumSmoothOne50to0
    | 97 => some .TransitionRampDownMediumSmoothTwo50to0
    | 98 => some .TransitionRampDownShortSmoothOne50to0
    | 99 => some .TransitionRampDownShortSmoothTwo50to0
    | 100 => some .TransitionRampDownLongSharpOne50to0
    | 101 => some .TransitionRampDownLongSharpTwo50to0
    | 102 => some .TransitionRampDownMediumSharpOne50to0
    | 103 => some .TransitionRampDownMediumSharpTwo50to0
    | 104 => some .TransitionRampDownShortSharpOne50to0
    | 105 => some .TransitionRampDownShortSharpTwo50to0
    | 106 => some .TransitionRampUpLongSmoothOne0to50
    | 107 => some .TransitionRampUpLongSmoothTwo0to50
    | 108 => some .TransitionRampUpMediumSmoothOne0to50
    | 109 => some .TransitionRampUpMediumSmoothTwo0to50
    | 110 => some .TransitionRampUpShortSmoothOne0to50
    | 111 => some .TransitionRampUpShortSmoothTwo0to50
    | 112 => some .TransitionRampUpLongSharpOne0to50
    | 113 => some .TransitionRampUpLongSharpTwo0to50
    | 114 => some .TransitionRampUpMediumSharpOne0to50
    | 115 => some .TransitionRampUpMediumSharpTwo0to50
    | 116 => some .TransitionRampUpShortSharpOne0to50
    | 117 => some .TransitionRampUpShortSharpTwo0to50
    | 118 => some .LongBuzzForProgrammaticStopping100
    | 119 => some .SmoothHumOne50
    | 120 => some .SmoothHumTwo40
    | 121 => some .SmoothHumThree30
    | 122 => some .SmoothHumFour20
    | 123 => some .SmoothHumFive10
    | _ => none

end Registers

namespace Registers

/-- Whether an effect is one of the named ROM waveforms rather than the
stop sentinel or the delay pseudo-effect. -/
def Effect.isNamed : Effect → Bool
  | .Stop => false
  | .Delays _ => false
  | _ => true

end Registers

namespace Drv2605

/-- The stop slot byte: wait bit cleared and waveform identifier zero. -/
def WaveformReg.new_stop : Nat := setField (setBit 0 7 false) 6 0 0

/-- A slot byte holding a ROM effect: wait bit cleared, waveform identifier
taken from the cast of the effect to a byte. -/
def WaveformReg.new_effect (e : Effect) : Nat :=
  setField (setBit 0 7 false) 6 0 e.code

variable {σ : Type} (T : Transport σ)

/-- Write a value to a register: one bus write of the register address
followed by the value, at the shared device address. -/
def write (register : Register) (value : Nat) : DrvM σ Unit :=
  i2cWrite T ADDRESS [register.addr, value]

/-- Read an eight bit value from a register: one write then read
transaction at the shared device address. -/
def read (register : Register) : DrvM σ Nat :=
  i2cWriteRead T ADDRESS register.addr

/-- Read the status register. -/
def get_status : DrvM σ Nat := read T .Status

/-- Read the mode register. -/
def get_mode : DrvM σ Nat := read T .Mode

/-- Reset the device: write the mode register byte built from zero with the
device reset bit set, without reading the register first. -/
def reset : DrvM σ Unit := write T .Mode (setBit 0 7 true)

/-- Put the device into standby mode or wake it up: read the mode register,
change only the standby bit, and write the byte back. -/
def set_standby (standby : Bool) : DrvM σ Unit :=
  DrvM.bind (read T .Mode) fun m => write T .Mode (setBit m 6 standby)

/-- Write the real time playback input register. -/
def set_realtime_playback_input (value : Int) : DrvM σ Unit :=
  write T .RealTimePlaybackInput (i8ToU8 value)

/-- Read register three, change the high impedance bit, write it back. -/
def set_high_impedance_state (value : Bool) : DrvM σ Unit :=
  DrvM.bind (read T .Register3) fun r => write T .Register3 (setBit r 4 value)

/-- Read the go register, change the go bit, write it back. -/
def set_go (go : Bool) : DrvM σ Unit :=
  DrvM.bind (read T .Go) fun r => write T .Go (setBit r 0 go)

/-- Write the overdrive time offset register. -/
def set_overdrive_time_offset (value : Int) : DrvM σ Unit :=
  write T .OverdriveTimeOffset (i8ToU8 value)

/-- Write the positive sustain time offset register. -/
def set_sustain_time_offset_positive (value : Int) : DrvM σ Unit :=
  write T .SustainTimeOffsetPositive (i8ToU8 value)

/-- Write the negative sustain time offset register. -/
def set_sustain_time_offset_negative (value : Int) : DrvM σ Unit :=
  write T .SustainTimeOffsetNegative (i8ToU8 value)

/-- Write the brake time offset register. -/
def set_brake_time_offset (value : Int) : DrvM σ Unit :=
  write T .BrakeTimeOffset (i8ToU8 value)

/-- The condition of the polling loop of the diagnostics routine: read the
go register and repeat while the go bit is set. The source loop has no
bound; the fuel argument only makes the embedding total, and exhausting it
reports the divergence outcome. -/
def wait_on_go : Nat → DrvM σ Unit
  | 0 => DrvM.hang
  | fuel + 1 =>
    DrvM.bind (read T .Go) fun b =>
      if Nat.testBit b 0 then wait_on_go fuel else DrvM.pure ()

/-- The diagnostics routine: read the mode register, clear the standby bit
and store one into the mode field, write it back, set the go bit, poll the
go bit until it clears, then read the status register and fail if the
diagnostic result flag is set. -/
def diagnostics (fuel : Nat) : DrvM σ Unit :=
  DrvM.bind (read T .Mode) fun m =>
  DrvM.bind (write T .Mode (setField (setBit m 6 false) 2 0 1)) fun _ =>
  DrvM.bind (set_go T true) fun _ =>
  DrvM.bind (wait_on_go T fuel) fun _ =>
  DrvM.bind (get_status T) fun reg =>
  if Nat.testBit reg 3 then DrvM.fail .DeviceDiagError else DrvM.pure ()

/-- The identity check: read the status register and fail with the device
identifier error when its device identifier field differs from the
expected identifier of the targeted chip variant. -/
def check_id (id : Nat) : DrvM σ Unit :=
  DrvM.bind (get_status T) fun reg =>
    if getField reg 7 5 ≠ id then DrvM.fail .DeviceIdError else DrvM.pure ()

/-- Force open loop operation on an ERM device: read control register
three, set the ERM open loop bit, write it back. -/
def set_open_loop_erm : DrvM σ Unit :=
  DrvM.bind (read T .Control3) fun c => write T .Control3 (setBit c 5 true)

/-- Force open loop operation on an LRA device: read control register
three, set the LRA open loop bit, write it back. -/
def set_open_loop_lra : DrvM σ Unit :=
  DrvM.bind (read T .Control3) fun c => write T .Control3 (setBit c 0 true)

/-- Select the waveform library: read register three, store the selection
into the library selection field, write it back. -/
def set_library (value : Nat) : DrvM σ Unit :=
  DrvM.bind (read T .Register3) fun r => write T .Register3 (setField r 2 0 value)

/-- Set the eight waveform slots: one bus write of the base register
address followed by the eight slot bytes. -/
def set_waveform (w : Fin 8 → Nat) : DrvM σ Unit :=
  i2cWrite T ADDRESS
    [Register.WaveformSequence0.addr, w 0, w 1, w 2, w 3, w 4, w 5, w 6, w 7]

/-- Program a single effect followed by the stop sentinel: one bus write
of the base register address, the effect slot byte, and the stop byte. -/
def set_single_effect (e : Effect) : DrvM σ Unit :=
  i2cWrite T ADDRESS
    [Register.WaveformSequence0.addr, WaveformReg.new_effect e, WaveformReg.new_stop]

/-- The configuration routine of the ERM typestate: check the identifier,
clear the motor type bit of the feedback control register, run the
diagnostics routine, then enter standby. -/
def config_erm (fuel : Nat) : DrvM σ Unit :=
  DrvM.bind (check_id T Drv2605Erm.ID) fun _ =>
  DrvM.bind (read T .FeedbackControl) fun f =>
  DrvM.bind (write T .FeedbackControl (setBit f 7 false)) fun _ =>
  DrvM.bind (diagnostics T fuel) fun _ =>
  set_standby T true

/-- The configuration routine of the LRA typestate: check the identifier,
set the motor type bit of the feedback control register, run the
diagnostics routine, then enter standby. -/
def config_lra (fuel : Nat) : DrvM σ Unit :=
  DrvM.bind (check_id T Drv2605Lra.ID) fun _ =>
  DrvM.bind (read T .FeedbackControl) fun f =>
  DrvM.bind (write T .FeedbackControl (setBit f 7 true)) fun _ =>
  DrvM.bind (diagnostics T fuel) fun _ =>
  set_standby T true

end Drv2605

/-- Claim C1: for every eight element array of waveform slot bytes, the
waveform setter performs exactly one bus write transaction whose payload is
exactly nine bytes, the base register address four followed by the eight
slot bytes in slot order. -/
theorem c1_set_waveform_one_nine_byte_write :
    ∀ (σ : Type) (T : Transport σ) (s : σ) (w : Fin 8 → Nat),
      (Drv2605.set_waveform T w s).2.2 =
        [Tx.wr ADDRESS [4, w 0, w 1, w 2, w 3, w 4, w 5, w 6, w 7]] ∧
      ([4, w 0, w 1, w 2, w 3, w 4, w 5, w 6, w 7] : List Nat).length = 9 := by
  intro σ T s w
  exact ⟨rfl, rfl⟩

/-- Claim C10: the reset operation issues exactly one bus write carrying
the mode register address and the fixed byte 0x80, reads nothing first,
and that byte has the device reset bit set, the standby bit clear, and a
zero mode field. -/
theorem c10_reset_writes_fixed_byte :
    ∀ (σ : Type) (T : Transport σ) (s : σ),
      (Drv2605.reset T s).2.2 = [Tx.wr ADDRESS [1, 0x80]] ∧
      setBit 0 7 true = 0x80 ∧
      Nat.testBit 0x80 7 = true ∧
      Nat.testBit 0x80 6 = false ∧
      getField 0x80 2 0 = 0 := by
  intro σ T s
  refine ⟨rfl, by decide, by decide, by decide, by decide⟩

/-- Claim C2: programming the strong click effect as a single effect and
then setting the go bit produces, in order, one three byte bus write of
the base address four, the effect byte one, and the stop sentinel zero,
followed by one read of the go register and one write of the go register
whose byte is the byte read with bit zero set. -/
theorem c2_single_effect_then_go (resp : Nat → Option Nat) (g : Nat)
    (h1 : resp 1 = some g) (hg : g < 256) :
    (DrvM.bind (Drv2605.set_single_effect (oracleT resp) .StrongClick100)
        (fun _ => Drv2605.set_go (oracleT resp) true) 0).2.2 =
      [Tx.wr ADDRESS [4, 1, 0], Tx.rd ADDRESS 12 g,
        Tx.wr ADDRESS [12, setBit g 0 true]] ∧
    (DrvM.bind (Drv2605.set_single_effect (oracleT resp) .StrongClick100)
        (fun _ => Drv2605.set_go (oracleT resp) true) 0).1 = Outcome.ok () ∧
    setBit g 0 true = g ||| 1 := by
  have hm : g % 256 = g := Nat.mod_eq_of_lt hg
  have e1 : Drv2605.WaveformReg.new_effect .StrongClick100 = 1 := by decide
  have e2 : Drv2605.WaveformReg.new_stop = 0 := by decide
  refine ⟨?_, ?_, rfl⟩ <;>
    simp [DrvM.bind, DrvM.pure, Drv2605.set_single_effect, Drv2605.set_go,
      Drv2605.read, Drv2605.write, i2cWrite, i2cWriteRead, oracleT, h1, hm,
      e1, e2, Drv2605.Register.addr, ADDRESS]

/-- Witness for claim C2 at the script answering zero to every read. -/
theorem c2_single_effect_then_go_witness :
    (DrvM.bind (Drv2605.set_single_effect (oracleT fun _ => some 0) .StrongClick100)
        (fun _ => Drv2605.set_go (oracleT fun _ => some 0) true) 0).1 = Outcome.ok () :=
  (c2_single_effect_then_go (fun _ => some 0) 0 rfl (by decide)).2.1

/-- Claim C6: the identity check reads the status register once, performs
no register write, fails with the device identifier error exactly when the
top three bits of the byte read differ from the expected identifier, and
succeeds exactly when they match. -/
theorem c6_check_id_top_bits (b id : Nat) (hb : b < 256) :
    (Drv2605.check_id (oracleT fun _ => some b) id 0).2.2 = [Tx.rd ADDRESS 0 b] ∧
    ((Drv2605.check_id (oracleT fun _ => some b) id 0).1 =
        Outcome.err DrvError.DeviceIdError ↔ b >>> 5 ≠ id) ∧
    ((Drv2605.check_id (oracleT fun _ => some b) id 0).1 =
        Outcome.ok () ↔ b >>> 5 = id) := by
  have hm : b % 256 = b := Nat.mod_eq_of_lt hb
  have hfAll : ∀ x < 256, getField x 7 5 = x >>> 5 := by decide
  have hf : getField b 7 5 = b >>> 5 := hfAll b hb
  refine ⟨?_, ?_, ?_⟩
  · simp only [Drv2605.check_id, Drv2605.get_status, Drv2605.read, i2cWriteRead,
      oracleT, hm, DrvM.bind, DrvM.pure, DrvM.fail, Drv2605.Register.addr]
    split <;> rfl
  · by_cases h : b >>> 5 = id <;>
      simp [Drv2605.check_id, Drv2605.get_status, Drv2605.read, i2cWriteRead,
        oracleT, hm, DrvM.bind, DrvM.pure, DrvM.fail, hf, h]
  · by_cases h : b >>> 5 = id <;>
      simp [Drv2605.check_id, Drv2605.get_status, Drv2605.read, i2cWriteRead,
        oracleT, hm, DrvM.bind, DrvM.pure, DrvM.fail, hf, h]

/-- Witness for claim C6 at the status byte 0x60, whose top three bits are
three, matching the expected identifier of the DRV2605 chip. -/
theorem c6_check_id_top_bits_witness :
    (Drv2605.check_id (oracleT fun _ => some 0x60) Drv2605.Drv2605Erm.ID 0).1 =
      Outcome.ok () :=
  (c6_check_id_top_bits 0x60 Drv2605.Drv2605Erm.ID (by decide)).2.2.mpr (by decide)

/-- The register mutation of claim C3: enter standby and leave it again,
run against the register file fake transport. -/
def standbyCycle (s0 : Nat → Nat) :
    Outcome Unit × (Nat → Nat) × List Tx :=
  DrvM.bind (Drv2605.set_standby regT true)
    (fun _ => Drv2605.set_standby regT false) s0

/-- Claim C3: entering then leaving standby performs two read modify write
cycles on the mode register, each writing back the byte it read with only
the standby bit changed, and leaves the mode field and every bit other
than the standby bit of the mode register at its initial value. -/
theorem c3_standby_cycle_preserves_mode (s0 : Nat → Nat) (h : s0 1 < 256) :
    (standbyCycle s0).2.2 =
      [Tx.rd ADDRESS 1 (s0 1),
        Tx.wr ADDRESS [1, setBit (s0 1) 6 true],
        Tx.rd ADDRESS 1 (setBit (s0 1) 6 true),
        Tx.wr ADDRESS [1, setBit (setBit (s0 1) 6 true) 6 false]] ∧
    (standbyCycle s0).2.1 1 = setBit (setBit (s0 1) 6 true) 6 false ∧
    (standbyCycle s0).1 = Outcome.ok () ∧
    getField ((standbyCycle s0).2.1 1) 2 0 = getField (s0 1) 2 0 ∧
    (∀ i < 8, i ≠ 6 →
      Nat.testBit ((standbyCycle s0).2.1 1) i = Nat.testBit (s0 1) i) ∧
    (∀ b < 256, ∀ i < 8, i ≠ 6 →
      Nat.testBit (setBit b 6 true) i = Nat.testBit b i ∧
      Nat.testBit (setBit b 6 false) i = Nat.testBit b i ∧
      Nat.testBit (setBit b 6 true) 6 = true ∧
      Nat.testBit (setBit b 6 false) 6 = false) := by
  have hm : s0 1 % 256 = s0 1 := Nat.mod_eq_of_lt h
  have hltAll : ∀ b < 256, setBit b 6 true < 256 := by decide
  have hm2 : setBit (s0 1) 6 true % 256 = setBit (s0 1) 6 true :=
    Nat.mod_eq_of_lt (hltAll _ h)
  have hgAll : ∀ b < 256,
      getField (setBit (setBit b 6 true) 6 false) 2 0 = getField b 2 0 := by
    decide
  have htbAll : ∀ b < 256, ∀ i < 8, i ≠ 6 →
      Nat.testBit (setBit (setBit b 6 true) 6 false) i = Nat.testBit b i := by
    decide
  have hstate : (standbyCycle s0).2.1 1 =
      setBit (setBit (s0 1) 6 true) 6 false := by
    simp [standbyCycle, DrvM.bind, Drv2605.set_standby, Drv2605.read,
      Drv2605.write, i2cWrite, i2cWriteRead, regT, applyWrite, storeSeq,
      hm, hm2, Drv2605.Register.addr]
  refine ⟨?_, hstate, ?_, ?_, ?_, ?_⟩
  · simp [standbyCycle, DrvM.bind, Drv2605.set_standby, Drv2605.read,
      Drv2605.write, i2cWrite, i2cWriteRead, regT, applyWrite, storeSeq,
      hm, hm2, Drv2605.Register.addr]
  · simp [standbyCycle, DrvM.bind, Drv2605.set_standby, Drv2605.read,
      Drv2605.write, i2cWrite, i2cWriteRead, regT, applyWrite, storeSeq,
      hm, hm2, Drv2605.Register.addr]
  · rw [hstate]
    exact hgAll _ h
  · intro i hi h6
    rw [hstate]
    exact htbAll _ h i hi h6
  · have hall : ∀ b < 256, ∀ i < 8, i ≠ 6 →
        Nat.testBit (setBit b 6 true) i = Nat.testBit b i ∧
        Nat.testBit (setBit b 6 false) i = Nat.testBit b i ∧
        Nat.testBit (setBit b 6 true) 6 = true ∧
        Nat.testBit (setBit b 6 false) 6 = false := by decide
    exact hall

/-- Witness for claim C3 at the register file holding 0x47 everywhere. -/
theorem c3_standby_cycle_preserves_mode_witness :
    (standbyCycle fun _ => 0x47).2.1 1 =
      setBit (setBit 0x47 6 true) 6 false :=
  (c3_standby_cycle_preserves_mode (fun _ => 0x47) (by decide)).2.1


/-- The transactions of a polling run over the go register: one read per
iteration, with the byte of the n-th read drawn from the script. -/
def goPolls (f : Nat → Nat) (c : Nat) : Nat → List Tx
  | 0 => [Tx.rd ADDRESS 12 (f c)]
  | k + 1 => Tx.rd ADDRESS 12 (f c) :: goPolls f (c + 1) k

theorem goPolls_eq_map (f : Nat → Nat) :
    ∀ k c, goPolls f c k =
      (List.range (k + 1)).map fun i => Tx.rd ADDRESS 12 (f (c + i)) := by
  intro k
  induction k with
  | zero => intro c; simp [goPolls, List.range_succ]
  | succ k ih =>
    intro c
    rw [goPolls, ih (c + 1)]
    conv_rhs => rw [List.range_succ_eq_map]
    rw [List.map_cons, List.map_map]
    congr 1
    simp
    intro a _
    congr 1
    omega

theorem wait_on_go_oracle (f : Nat → Nat) (hf : ∀ i, f i < 256) :
    ∀ k c fuel, (∀ i < k, Nat.testBit (f (c + i)) 0 = true) →
      Nat.testBit (f (c + k)) 0 = false → k < fuel →
      Drv2605.wait_on_go (oracleT fun i => some (f i)) fuel c =
        (Outcome.ok (), c + k + 1, goPolls f c k) := by
  intro k
  induction k with
  | zero =>
    intro c fuel _ hclear hfuel
    obtain ⟨fl, rfl⟩ : ∃ fl, fuel = fl + 1 := ⟨fuel - 1, by omega⟩
    have hc : Nat.testBit (f c) 0 = false := by simpa using hclear
    simp [Drv2605.wait_on_go, DrvM.bind, DrvM.pure, Drv2605.read,
      i2cWriteRead, oracleT, Nat.mod_eq_of_lt (hf c), hc,
      Drv2605.Register.addr, goPolls]
  | succ k ih =>
    intro c fuel hbusy hclear hfuel
    obtain ⟨fl, rfl⟩ : ∃ fl, fuel = fl + 1 := ⟨fuel - 1, by omega⟩
    have hc : Nat.testBit (f c) 0 = true := by
      simpa using hbusy 0 (Nat.succ_pos k)
    have ih2 := ih (c + 1) fl
      (fun i hi => by
        have hb := hbusy (i + 1) (by omega)
        have he : c + (i + 1) = c + 1 + i := by omega
        rwa [he] at hb)
      (by
        have he : c + (k + 1) = c + 1 + k := by omega
        rwa [he] at hclear)
      (by omega)
    simp [oracleT] at ih2
    simp [Drv2605.wait_on_go, DrvM.bind, Drv2605.read, i2cWriteRead, oracleT,
      Nat.mod_eq_of_lt (hf c), hc, ih2, Drv2605.Register.addr, goPolls]
    omega

/-- Claim C5: when every transaction succeeds and the go register reads
busy k times before reading clear, the diagnostics routine asserts the go
bit, polls the go bit those k plus one times, then reads the status
register exactly once, and fails with the diagnostic error exactly when
the diagnostic result flag of that status byte is set. -/
theorem c5_diagnostics_result (f : Nat → Nat) (hf : ∀ i, f i < 256)
    (k fuel : Nat)
    (hbusy : ∀ i < k, Nat.testBit (f (4 + i)) 0 = true)
    (hclear : Nat.testBit (f (4 + k)) 0 = false)
    (hfuel : k < fuel) :
    ((Drv2605.diagnostics (oracleT fun i => some (f i)) fuel 0).1 =
        Outcome.err DrvError.DeviceDiagError ↔
      Nat.testBit (f (5 + k)) 3 = true) ∧
    ((Drv2605.diagnostics (oracleT fun i => some (f i)) fuel 0).1 =
        Outcome.ok () ↔ Nat.testBit (f (5 + k)) 3 = false) ∧
    (Drv2605.diagnostics (oracleT fun i => some (f i)) fuel 0).2.2 =
      [Tx.rd ADDRESS 1 (f 0),
        Tx.wr ADDRESS [1, setField (setBit (f 0) 6 false) 2 0 1],
        Tx.rd ADDRESS 12 (f 2),
        Tx.wr ADDRESS [12, setBit (f 2) 0 true]] ++
      ((List.range (k + 1)).map fun i => Tx.rd ADDRESS 12 (f (4 + i))) ++
      [Tx.rd ADDRESS 0 (f (5 + k))] := by
  have hmask : ∀ i, f i % 256 = f i := fun i => Nat.mod_eq_of_lt (hf i)
  have hwait := wait_on_go_oracle f hf k 4 fuel hbusy hclear hfuel
  rw [show 4 + k + 1 = 5 + k from by omega] at hwait
  simp only [oracleT] at hwait
  refine ⟨?_, ?_, ?_⟩ <;>
  · by_cases hd : Nat.testBit (f (5 + k)) 3 = true <;>
      simp [Drv2605.diagnostics, Drv2605.set_go, Drv2605.get_status,
        Drv2605.read, Drv2605.write, DrvM.bind, DrvM.pure, DrvM.fail,
        i2cWrite, i2cWriteRead, oracleT, hmask, hwait,
        Drv2605.Register.addr, goPolls_eq_map, hd]

/-- Witness for claim C5 at the script answering zero to every read: the
go bit reads clear at the first poll and the diagnostic flag is clear. -/
theorem c5_diagnostics_result_witness :
    (Drv2605.diagnostics (oracleT fun _ => some 0) 1 0).1 = Outcome.ok () :=
  (c5_diagnostics_result (fun _ => 0) (fun _ => show (0:Nat) < 256 by decide) 0 1
      (fun i hi => absurd hi (Nat.not_lt_zero i)) (by decide)
      (by decide)).2.1.mpr (by decide)

theorem oracleT_writeT (resp : Nat → Option Nat) (s d : Nat) (p : List Nat) :
    (oracleT resp).writeT s d p = (true, s + 1) := rfl

theorem oracleT_readT (resp : Nat → Option Nat) (s d r : Nat) :
    (oracleT resp).readT s d r = (resp s, s + 1) := rfl

/-- Claim C8: the go polling loop of the diagnostics routine has no
iteration bound: against a transport forever answering a byte with bit
zero set, the loop and the whole routine report divergence at every fuel,
and in general the loop returns within some fuel exactly when one of its
reads either fails at the transport or answers a byte with bit zero
clear. -/
theorem c8_poll_unbounded :
    (∀ fuel c,
      (Drv2605.wait_on_go (oracleT fun _ => some 1) fuel c).1 =
        Outcome.timeout) ∧
    (∀ fuel s,
      (Drv2605.diagnostics (oracleT fun _ => some 1) fuel s).1 =
        Outcome.timeout) ∧
    (∀ (resp : Nat → Option Nat) fuel c,
      ((Drv2605.wait_on_go (oracleT resp) fuel c).1 ≠ Outcome.timeout ↔
        ∃ i < fuel, resp (c + i) = none ∨
          ∃ b, resp (c + i) = some b ∧ Nat.testBit (b % 256) 0 = false)) := by
  have ht1 : Nat.testBit 1 0 = true := by decide
  have hbusyAll : ∀ fuel c,
      (Drv2605.wait_on_go (oracleT fun _ => some 1) fuel c).1 =
        Outcome.timeout := by
    intro fuel
    induction fuel with
    | zero => intro c; rfl
    | succ n ih =>
      intro c
      rcases hws : Drv2605.wait_on_go (oracleT fun _ => some 1) n (c + 1) with
        ⟨o, s2, t⟩
      have ho : o = Outcome.timeout := by
        have h := ih (c + 1)
        rw [hws] at h
        exact h
      subst ho
      simp [Drv2605.wait_on_go, DrvM.bind, Drv2605.read, i2cWriteRead,
        oracleT_readT, oracleT_writeT, ht1, hws, Drv2605.Register.addr]
  refine ⟨hbusyAll, ?_, ?_⟩
  · intro fuel s
    rcases hws : Drv2605.wait_on_go (oracleT fun _ => some 1) fuel (s + 4) with
      ⟨o, s2, t⟩
    have ho : o = Outcome.timeout := by
      have h := hbusyAll fuel (s + 4)
      rw [hws] at h
      exact h
    subst ho
    have hws4 : Drv2605.wait_on_go (oracleT fun _ => some 1) fuel (s + 1 + 1 + 1 + 1) =
        (Outcome.timeout, s2, t) := by
      rw [show s + 1 + 1 + 1 + 1 = s + 4 from by omega, hws]
    simp [Drv2605.diagnostics, Drv2605.set_go, Drv2605.read, Drv2605.write,
      DrvM.bind, i2cWrite, i2cWriteRead, oracleT_readT, oracleT_writeT,
      ht1, hws4, Drv2605.Register.addr]
  · intro resp fuel
    induction fuel with
    | zero =>
      intro c
      simp [Drv2605.wait_on_go, DrvM.hang]
    | succ n ih =>
      intro c
      cases hr : resp c with
      | none =>
        have hne : (Drv2605.wait_on_go (oracleT resp) (n + 1) c).1 ≠
            Outcome.timeout := by
          simp [Drv2605.wait_on_go, DrvM.bind, Drv2605.read, i2cWriteRead,
            oracleT_readT, hr, Drv2605.Register.addr]
        exact iff_of_true hne ⟨0, Nat.succ_pos n, Or.inl (by simpa using hr)⟩
      | some b =>
        by_cases hb : Nat.testBit (b % 256) 0 = true
        · rcases hws : Drv2605.wait_on_go (oracleT resp) n (c + 1) with
            ⟨o, s2, t⟩
          have ihc := ih (c + 1)
          rw [hws] at ihc
          have hl : (Drv2605.wait_on_go (oracleT resp) (n + 1) c).1 = o := by
            simp [Drv2605.wait_on_go, DrvM.bind, Drv2605.read, i2cWriteRead,
              oracleT_readT, hr, hb, hws, Drv2605.Register.addr]
          rw [hl, ihc]
          constructor
          · rintro ⟨i, hi, hq⟩
            refine ⟨i + 1, by omega, ?_⟩
            have he : c + (i + 1) = c + 1 + i := by omega
            rwa [he]
          · rintro ⟨i, hi, hq⟩
            match i, hq with
            | 0, hq =>
              exfalso
              rcases hq with hnone | ⟨b2, hb2, hcl⟩
              · rw [show c + 0 = c from by omega, hr] at hnone
                exact Option.noConfusion hnone
              · rw [show c + 0 = c from by omega, hr] at hb2
                have hbb : b = b2 := by
                  injection hb2
                rw [← hbb] at hcl
                rw [hcl] at hb
                exact Bool.noConfusion hb
            | j + 1, hq =>
              refine ⟨j, by omega, ?_⟩
              have he : c + (j + 1) = c + 1 + j := by omega
              rwa [he] at hq
        · have hbf : Nat.testBit (b % 256) 0 = false := by
            cases hx : Nat.testBit (b % 256) 0 with
            | true => exact absurd hx hb
            | false => rfl
          have hne : (Drv2605.wait_on_go (oracleT resp) (n + 1) c).1 ≠
              Outcome.timeout := by
            simp [Drv2605.wait_on_go, DrvM.bind, DrvM.pure, Drv2605.read,
              i2cWriteRead, oracleT_readT, hr, hbf, Drv2605.Register.addr]
          exact iff_of_true hne
            ⟨0, Nat.succ_pos n, Or.inr ⟨b, by simpa using hr, hbf⟩⟩

/-- Claim C4, evaluated at the failing input: starting from the mode byte
0x40, the byte the diagnostics routine writes into the mode register
before asserting the go bit has its standby bit clear, but its mode field
holds the external trigger rising edge code one, not the diagnostics code
six required by the claim. -/
theorem c4_diagnostics_writes_mode_one :
    (Drv2605.diagnostics
        (oracleT fun i => some (if i = 0 then 0x40 else 0)) 1 0).2.2 =
      [Tx.rd ADDRESS 1 0x40, Tx.wr ADDRESS [1, 1], Tx.rd ADDRESS 12 0,
        Tx.wr ADDRESS [12, 1], Tx.rd ADDRESS 12 0, Tx.rd ADDRESS 0 0] ∧
    setField (setBit 0x40 6 false) 2 0 1 = 1 ∧
    getField 1 2 0 = Drv2605.Mode.code Drv2605.Mode.ExternalTriggerRisingEdge ∧
    getField 1 2 0 ≠ Drv2605.Mode.code Drv2605.Mode.Diagnostics ∧
    Nat.testBit 1 6 = false := by
  refine ⟨by decide, by decide, by decide, by decide, by decide⟩

/-- Whether every transaction of a trace addresses the shared bus
address. -/
def addrOnly (tr : List Tx) : Bool := tr.all fun tx => tx.dev == ADDRESS

/-- Whether a driver computation only ever issues transactions to the
shared bus address, from every start state. -/
def addrAll {σ α : Type} (m : DrvM σ α) : Prop :=
  ∀ s, addrOnly (m s).2.2 = true

theorem addrAll_bind {σ α β : Type} {m : DrvM σ α} {f : α → DrvM σ β}
    (hm : addrAll m) (hf : ∀ a, addrAll (f a)) : addrAll (DrvM.bind m f) := by
  intro s
  rcases hm0 : m s with ⟨o, s2, t1⟩
  have h1 := hm s
  rw [hm0] at h1
  cases o with
  | ok a =>
    rcases hf0 : f a s2 with ⟨r, s3, t2⟩
    have h2 := hf a s2
    rw [hf0] at h2
    simp only [DrvM.bind, hm0, hf0]
    show addrOnly (t1 ++ t2) = true
    simp only [addrOnly, List.all_append, Bool.and_eq_true]
    exact ⟨by simpa [addrOnly] using h1, by simpa [addrOnly] using h2⟩
  | err e =>
    simp only [DrvM.bind, hm0]
    exact h1
  | timeout =>
    simp only [DrvM.bind, hm0]
    exact h1

theorem addrAll_pure {σ α : Type} (a : α) : addrAll (DrvM.pure (σ := σ) a) :=
  fun _ => rfl

theorem addrAll_fail {σ α : Type} (e : DrvError) :
    addrAll (DrvM.fail (σ := σ) (α := α) e) :=
  fun _ => rfl

theorem addrAll_hang {σ α : Type} : addrAll (DrvM.hang (σ := σ) (α := α)) :=
  fun _ => rfl

theorem addrAll_ite {σ α : Type} {c : Prop} [Decidable c] {m1 m2 : DrvM σ α}
    (h1 : addrAll m1) (h2 : addrAll m2) : addrAll (if c then m1 else m2) := by
  split
  · exact h1
  · exact h2

theorem addrAll_i2cWrite {σ : Type} (T : Transport σ) (payload : List Nat) :
    addrAll (i2cWrite T ADDRESS payload) := by
  intro s
  simp [i2cWrite, addrOnly, Tx.dev]

theorem addrAll_i2cWriteRead {σ : Type} (T : Transport σ) (reg : Nat) :
    addrAll (i2cWriteRead T ADDRESS reg) := by
  intro s
  rcases h : T.readT s ADDRESS reg with ⟨ob, s2⟩
  cases ob <;> simp [i2cWriteRead, h, addrOnly, Tx.dev]

theorem addrAll_write {σ : Type} (T : Transport σ) (register : Drv2605.Register)
    (value : Nat) : addrAll (Drv2605.write T register value) :=
  addrAll_i2cWrite T _

theorem addrAll_read {σ : Type} (T : Transport σ) (register : Drv2605.Register) :
    addrAll (Drv2605.read T register) :=
  addrAll_i2cWriteRead T _

theorem addrAll_get_status {σ : Type} (T : Transport σ) :
    addrAll (Drv2605.get_status T) :=
  addrAll_read T _

theorem addrAll_set_go {σ : Type} (T : Transport σ) (v : Bool) :
    addrAll (Drv2605.set_go T v) :=
  addrAll_bind (addrAll_read T _) fun _ => addrAll_write T _ _

theorem addrAll_wait_on_go {σ : Type} (T : Transport σ) :
    ∀ fuel, addrAll (Drv2605.wait_on_go T fuel) := by
  intro fuel
  induction fuel with
  | zero => exact addrAll_hang
  | succ n ih =>
    simp only [Drv2605.wait_on_go]
    exact addrAll_bind (addrAll_read T _) fun b =>
      addrAll_ite ih (addrAll_pure _)

theorem addrAll_diagnostics {σ : Type} (T : Transport σ) (fuel : Nat) :
    addrAll (Drv2605.diagnostics T fuel) :=
  addrAll_bind (addrAll_read T _) fun _ =>
  addrAll_bind (addrAll_write T _ _) fun _ =>
  addrAll_bind (addrAll_set_go T _) fun _ =>
  addrAll_bind (addrAll_wait_on_go T fuel) fun _ =>
  addrAll_bind (addrAll_get_status T) fun _ =>
  addrAll_ite (addrAll_fail _) (addrAll_pure _)

theorem addrAll_check_id {σ : Type} (T : Transport σ) (id : Nat) :
    addrAll (Drv2605.check_id T id) :=
  addrAll_bind (addrAll_get_status T) fun _ =>
    addrAll_ite (addrAll_fail _) (addrAll_pure _)

/-- Claim C9: every bus transaction issued by every driver operation, on
both the register write path and the write then read path, addresses the
fixed shared device address 0x5a. -/
theorem c9_all_ops_use_shared_address :
    ∀ (σ : Type) (T : Transport σ),
      (∀ register value, addrAll (Drv2605.write T register value)) ∧
      (∀ register, addrAll (Drv2605.read T register)) ∧
      addrAll (Drv2605.get_status T) ∧
      addrAll (Drv2605.get_mode T) ∧
      addrAll (Drv2605.reset T) ∧
      (∀ v, addrAll (Drv2605.set_standby T v)) ∧
      (∀ v, addrAll (Drv2605.set_realtime_playback_input T v)) ∧
      (∀ v, addrAll (Drv2605.set_high_impedance_state T v)) ∧
      (∀ v, addrAll (Drv2605.set_go T v)) ∧
      (∀ v, addrAll (Drv2605.set_overdrive_time_offset T v)) ∧
      (∀ v, addrAll (Drv2605.set_sustain_time_offset_positive T v)) ∧
      (∀ v, addrAll (Drv2605.set_sustain_time_offset_negative T v)) ∧
      (∀ v, addrAll (Drv2605.set_brake_time_offset T v)) ∧
      (∀ fuel, addrAll (Drv2605.wait_on_go T fuel)) ∧
      (∀ fuel, addrAll (Drv2605.diagnostics T fuel)) ∧
      (∀ id, addrAll (Drv2605.check_id T id)) ∧
      addrAll (Drv2605.set_open_loop_erm T) ∧
      addrAll (Drv2605.set_open_loop_lra T) ∧
      (∀ v, addrAll (Drv2605.set_library T v)) ∧
      (∀ w, addrAll (Drv2605.set_waveform T w)) ∧
      (∀ e, addrAll (Drv2605.set_single_effect T e)) ∧
      (∀ fuel, addrAll (Drv2605.config_erm T fuel)) ∧
      (∀ fuel, addrAll (Drv2605.config_lra T fuel)) := by
  intro σ T
  refine ⟨fun r v => addrAll_write T r v,
    fun r => addrAll_read T r,
    addrAll_get_status T,
    addrAll_read T _,
    addrAll_write T _ _,
    fun v => addrAll_bind (addrAll_read T _) fun m => addrAll_write T _ _,
    fun v => addrAll_write T _ _,
    fun v => addrAll_bind (addrAll_read T _) fun r => addrAll_write T _ _,
    fun v => addrAll_set_go T v,
    fun v => addrAll_write T _ _,
    fun v => addrAll_write T _ _,
    fun v => addrAll_write T _ _,
    fun v => addrAll_write T _ _,
    addrAll_wait_on_go T,
    fun fuel => addrAll_diagnostics T fuel,
    fun id => addrAll_check_id T id,
    addrAll_bind (addrAll_read T _) fun c => addrAll_write T _ _,
    addrAll_bind (addrAll_read T _) fun c => addrAll_write T _ _,
    fun v => addrAll_bind (addrAll_read T _) fun r => addrAll_write T _ _,
    fun w => addrAll_i2cWrite T _,
    fun e => addrAll_i2cWrite T _,
    fun fuel => addrAll_bind (addrAll_check_id T _) fun _ =>
      addrAll_bind (addrAll_read T _) fun f =>
      addrAll_bind (addrAll_write T _ _) fun _ =>
      addrAll_bind (addrAll_diagnostics T fuel) fun _ =>
      addrAll_bind (addrAll_read T _) fun m => addrAll_write T _ _,
    fun fuel => addrAll_bind (addrAll_check_id T _) fun _ =>
      addrAll_bind (addrAll_read T _) fun f =>
      addrAll_bind (addrAll_write T _ _) fun _ =>
      addrAll_bind (addrAll_diagnostics T fuel) fun _ =>
      addrAll_bind (addrAll_read T _) fun m => addrAll_write T _ _⟩

/-- Claim C7: the named waveform effects encode to their identifiers one
through one hundred twenty three with the top bit clear and decode back to
themselves, so the encoding is injective on them; the stop sentinel
encodes to the byte zero, and the delay sentinel with count n in zero
through one hundred twenty seven encodes with bit 0x80 set and the low
seven bits holding n. -/
theorem c7_effect_byte_roundtrip :
    (∀ e : Registers.Effect, e.isNamed = true →
      Registers.effectOfByte e.toByte = some e ∧
      1 ≤ e.toByte ∧ e.toByte ≤ 123 ∧ Nat.testBit e.toByte 7 = false) ∧
    (∀ e1 e2 : Registers.Effect, e1.isNamed = true → e2.isNamed = true →
      e1.toByte = e2.toByte → e1 = e2) ∧
    Registers.Effect.Stop.toByte = 0 ∧
    (∀ n ≤ 127, (Registers.Effect.Delays n).toByte = 128 + n ∧
      Nat.testBit (Registers.Effect.Delays n).toByte 7 = true ∧
      (Registers.Effect.Delays n).toByte &&& 127 = n) := by
  have h1 : ∀ e : Registers.Effect, e.isNamed = true →
      Registers.effectOfByte e.toByte = some e ∧
      1 ≤ e.toByte ∧ e.toByte ≤ 123 ∧ Nat.testBit e.toByte 7 = false := by
    intro e he
    cases e <;>
      first
        | exact Bool.noConfusion he
        | exact ⟨rfl, by decide, by decide, by decide⟩
  have hdel : ∀ m ≤ 127, ((m % 256) ||| 128 = 128 + m ∧
      Nat.testBit ((m % 256) ||| 128) 7 = true ∧
      ((m % 256) ||| 128) &&& 127 = m) := by decide
  refine ⟨h1, ?_, rfl, hdel⟩
  intro e1 e2 h1e h2e heq
  have r1 := (h1 e1 h1e).1
  have r2 := (h1 e2 h2e).1
  rw [heq] at r1
  have h12 := r1.symm.trans r2
  injection h12

/-- Witness for claim C7 at the strong click effect and the delay count
zero. -/
theorem c7_effect_byte_roundtrip_witness :
    Registers.effectOfByte Registers.Effect.StrongClick100.toByte =
      some Registers.Effect.StrongClick100 ∧
    (Registers.Effect.Delays 0).toByte = 128 + 0 :=
  ⟨(c7_effect_byte_roundtrip.1 Registers.Effect.StrongClick100 rfl).1,
    (c7_effect_byte_roundtrip.2.2.2 0 (by decide)).1⟩
